import Mathlib

/-!
# Verification of the reg-lookup vehicle-data service

Shallow embedding of `src/app.py` (the fullest of the several copies of the
pipeline in the repository; `src/garage_scraper.py` is a near-duplicate
without the date extraction).  Python strings are modelled as Lean `String`s (a wrapper around
`List Char`), Python dicts appearing in the code as association lists that
record insertion order, and the network as an explicit oracle giving the
outcome of each `requests.get` call.
-/

namespace RegLookup

/-! ## Python string primitives used by the source -/

/-- The whitespace characters stripped by Python `str.strip()` (ASCII part). -/
def isPySpace (c : Char) : Bool :=
  c == ' ' || c == '\t' || c == '\n' || c == '\r' || c == '\x0b' || c == '\x0c'

/-- Python `s.strip()`: remove leading and trailing whitespace. -/
def pyStrip (s : String) : String :=
  String.mk (((s.data.dropWhile isPySpace).reverse.dropWhile isPySpace).reverse)

/-- Split a character list at every occurrence of `sep` (Python
`s.split(sep)` for a one-character separator, so the empty text splits
into one empty part
and separators are not merged). -/
def splitChar (sep : Char) : List Char → List (List Char)
  | [] => [[]]
  | c :: rest =>
    match splitChar sep rest with
    | [] => [[]]
    | cur :: done => if c == sep then [] :: cur :: done else (c :: cur) :: done

/-- Python split on a comma, `s.split(",")`. -/
def pySplitComma (s : String) : List String :=
  (splitChar ',' s.data).map String.mk

/-- Python split on the first space, `s.split(" ", 1)`, followed by the
padding with an empty model in the source (app.py lines 86-88) when no
space is present: the text before the first space and the text after it. -/
def splitFirstSpace (s : String) : String × String :=
  match s.data.dropWhile (· != ' ') with
  | [] => (s, "")
  | _ :: rest => (String.mk (s.data.takeWhile (· != ' ')), String.mk rest)

/-- Remove the leftmost occurrence of `pat` repeatedly, scanning left to
right; `fuel` bounds the recursion (callers pass the length of the text,
which suffices for a non-empty `pat`). -/
def removeSubFuel (pat : List Char) : Nat → List Char → List Char
  | _, [] => []
  | 0, s => s
  | fuel + 1, c :: rest =>
    if pat.isPrefixOf (c :: rest) ∧ pat ≠ [] then
      removeSubFuel pat fuel ((c :: rest).drop pat.length)
    else
      c :: removeSubFuel pat fuel rest

/-- Python `s.replace(pat, "")` for a non-empty `pat`: delete every
(non-overlapping, leftmost-first) occurrence of `pat` in `s`. -/
def pyRemove (pat s : String) : String :=
  String.mk (removeSubFuel pat.data s.data.length s.data)

/-- Python `pat in s`: substring containment. -/
def containsSubList (pat : List Char) : List Char → Bool
  | [] => pat.isEmpty
  | c :: rest => pat.isPrefixOf (c :: rest) || containsSubList pat rest

/-- Python `pat in s` on strings. -/
def pyContains (pat s : String) : Bool :=
  containsSubList pat.data s.data

/-- Python `s.upper()` (ASCII model). -/
def pyUpper (s : String) : String :=
  String.mk (s.data.map Char.toUpper)

/-- BeautifulSoup `node.get_text(strip=True)`: each text fragment of the
node stripped, fragments that strip to nothing dropped, the rest joined. -/
def getTextStrip (frags : List String) : String :=
  String.join ((frags.map pyStrip).filter (· != ""))

/-! ## Python values reaching the endpoints

The batch endpoint feeds arbitrary JSON values into the pipeline, so the
registration argument is modelled as a dynamically typed value. -/

/-- A JSON/Python value as it can appear in a request body. -/
inductive PyVal where
  | str (s : String)
  | int (n : Int)
  | list (xs : List PyVal)
  | none'

/-- A Python exception escaping an expression. -/
inductive PyExc where
  | timeout
  | other (detail : String)
deriving DecidableEq

/-- Python `v.upper()`: succeeds on strings, raises `AttributeError`
otherwise. -/
def pyUpperVal : PyVal → Except PyExc String
  | .str s => .ok (pyUpper s)
  | .int _ => .error (.other "AttributeError: int object has no attribute upper")
  | .list _ => .error (.other "AttributeError: list object has no attribute upper")
  | .none' => .error (.other "AttributeError: NoneType object has no attribute upper")

/-- Is the value a Python string? -/
def isStr : PyVal → Bool
  | .str _ => true
  | _ => false

/-! ## The parsed upstream page and the network

`BeautifulSoup(html).select_one(...)` and the two `soup.find(string=...)`
scans are the only observations the code makes of the page, so a parsed
document is modelled by what those observations return. -/

/-- A parsed HTML document, as observed by `get_vehicle_data`:
the text fragments of the unique node matched by the summary selector
`div.row.second-header div.col.m9.s12>span>span:nth-child(2)` (or `none`
when the selector matches nothing), and the text nodes of the document scanned
by `soup.find(string=...)`. -/
structure Doc where
  summaryNode : Option (List String)
  texts : List String
deriving DecidableEq

/-- Outcome of one `requests.get` call: a response with a status code and
a (parsed) body, a `requests.exceptions.Timeout`, or any other
transport-level exception. -/
inductive FetchOutcome where
  | response (status : Nat) (doc : Doc)
  | timeoutExc
  | otherExc (detail : String)
deriving DecidableEq

/-- What a single-record pipeline invocation returns: a vehicle record
(an ordered mapping, insertion order preserved) or an error mapping with
the single key `error` holding `msg`. -/
inductive LookupResult where
  | record (fields : List (String × String))
  | err (msg : String)
deriving DecidableEq

/-- Lookup in an ordered mapping (first entry with the given key). -/
def dictLookup {α : Type} (m : List (String × α)) (k : String) : Option α :=
  (m.find? (fun p => p.1 == k)).map (·.2)

/-! ## The single-record pipeline (`get_vehicle_data`, app.py lines 48-120) -/

/-- The body of the `try:` block of `get_vehicle_data` (app.py lines
62-113), with the `requests.get` outcome supplied by the oracle `fetch`.
A `.error` value is an exception propagating out of the block. -/
def get_vehicle_data_try (reg : PyVal) (fetch : FetchOutcome) : Except PyExc LookupResult :=
  match fetch with
  | .timeoutExc => .error .timeout
  | .otherExc detail => .error (.other detail)
  | .response status doc =>
    if status ≠ 200 then
      .ok (.err ("HTTP Error: " ++ toString status))
    else
      match doc.summaryNode with
      | none => .ok (.err "No data found")
      | some frags =>
        -- vehicle_parts = vehicle_info.get_text(strip=True).split(",");
        -- the arm with fewer than four parts is the len(vehicle_parts) < 4 test
        match pySplitComma (getTextStrip frags) with
        | p0 :: p1 :: p2 :: p3 :: _ =>
          -- make_model = vehicle_parts[0].replace("-", "").strip().split(" ", 1)
          let make_model := splitFirstSpace (pyStrip (pyRemove "-" p0))
          match pyUpperVal reg with
          | .error e => .error e
          | .ok regU =>
            let base : List (String × String) :=
              [("reg", regU),
               ("make", make_model.1),
               ("model", make_model.2),
               ("fuel", pyStrip p1),
               ("cc", pyStrip (pyRemove "cc" p2)),
               ("transmission", pyStrip p3)]
            let withReg :=
              match doc.texts.find? (fun t => pyContains "Registered on:" t) with
              | some t => base ++ [("registered_on", pyStrip (pyRemove "Registered on:" (pyStrip t)))]
              | none => base
            let withMot :=
              match doc.texts.find? (fun t => pyContains "MOT due on:" t) with
              | some t => withReg ++ [("mot_expiry", pyStrip (pyRemove "MOT due on:" (pyStrip t)))]
              | none => withReg
            .ok (.record withMot)
        | _ => .ok (.err "Incomplete data found")

/-- The function `get_vehicle_data` as a Python callable: the `try:` block with its two
`except` handlers (app.py lines 115-120).  The `Except` in the result type
records whether an exception escapes the call. -/
def get_vehicle_data (reg : PyVal) (fetch : FetchOutcome) : Except PyExc LookupResult :=
  match get_vehicle_data_try reg fetch with
  | .ok r => .ok r
  | .error .timeout => .ok (.err "Request timed out")
  | .error (.other detail) => .ok (.err ("Processing error: " ++ detail))

/-- The value `get_vehicle_data` returns (it never raises; the lemma
`get_vehicle_data_eq` below ties this to the callable). -/
def lookupTotal (reg : PyVal) (fetch : FetchOutcome) : LookupResult :=
  match get_vehicle_data_try reg fetch with
  | .ok r => r
  | .error .timeout => .err "Request timed out"
  | .error (.other detail) => .err ("Processing error: " ++ detail)

/-! ## The retry decorator (`retry`, app.py lines 29-46) -/

/-- The `while retries < max_retries` loop of the retry decorator.
`f k` is the wrapped call on attempt `k` (0-based); `remaining` is
`max_retries - retries`.  Returns the outcome of the loop (`.ok none` models the
`return None` fall-through when the loop is never entered), the number of
calls to `f` made, and the number of `time.sleep(delay)` intervals slept. -/
def retryGo {α : Type} (f : Nat → Except PyExc α) (retries : Nat) :
    Nat → Except PyExc (Option α) × Nat × Nat
  | 0 => (.ok none, 0, 0)
  | remaining + 1 =>
    match f retries with
    | .ok a => (.ok (some a), 1, 0)
    | .error e =>
      -- retries += 1; if retries >= max_retries: raise
      if remaining = 0 then (.error e, 1, 0)
      else
        let rest := retryGo f (retries + 1) remaining
        (rest.1, rest.2.1 + 1, rest.2.2 + 1)

/-- The decorated call produced by `retry(max_retries, delay)`. -/
def retry_call {α : Type} (f : Nat → Except PyExc α) (max_retries : Nat) :
    Except PyExc (Option α) × Nat × Nat :=
  retryGo f 0 max_retries

/-- The function `get_vehicle_data` as actually exposed: wrapped by
`@retry(max_retries=3, delay=1)`.  `fetchSeq k` is the transport outcome
the network would give the k-th underlying fetch attempt. -/
def decorated_get_vehicle_data (reg : PyVal) (fetchSeq : Nat → FetchOutcome) :
    Except PyExc (Option LookupResult) × Nat × Nat :=
  retry_call (fun k => get_vehicle_data reg (fetchSeq k)) 3

/-! ## The batch endpoint (`batch_lookup`, app.py lines 128-149) -/

/-- Lookup of a key in a JSON object (the membership test and the
subscript access on `data` in app.py lines 132-135). -/
def jsonLookup (d : List (String × PyVal)) (k : String) : Option PyVal :=
  (d.find? (fun p => p.1 == k)).map (·.2)

/-- Python dict insertion: an existing key keeps its position and gets the
new value, a new key is appended at the end. -/
def dictInsert {α : Type} (m : List (String × α)) (k : String) (v : α) :
    List (String × α) :=
  match m with
  | [] => [(k, v)]
  | p :: rest => if p.1 == k then (k, v) :: rest else p :: dictInsert rest k v

/-- The worker pool run, `list(executor.map(get_vehicle_data,
registrations))`: results are collected in input order, and the first
exception raised by a call is re-raised when the results are iterated. -/
def mapResults (f : PyVal → Except PyExc (Option LookupResult)) :
    List PyVal → Except PyExc (List (Option LookupResult))
  | [] => .ok []
  | v :: rest =>
    match f v with
    | .error e => .error e
    | .ok r =>
      match mapResults f rest with
      | .error e => .error e
      | .ok rs => .ok (r :: rs)

/-- The dict comprehension over `zip(registrations, results)` keyed by
`reg.upper()` (app.py line 148), which raises if some `reg` is not a
string. -/
def buildResponse (m : List (String × Option LookupResult)) :
    List (PyVal × Option LookupResult) → Except PyExc (List (String × Option LookupResult))
  | [] => .ok m
  | p :: rest =>
    match pyUpperVal p.1 with
    | .error e => .error e
    | .ok k => buildResponse (dictInsert m k p.2) rest

/-- What the `/batch` route hands back to Flask: a 400 response, a 200
response carrying the aggregate mapping, or an exception escaping the
handler (which Flask turns into a 500 response). -/
inductive BatchOutcome where
  | badRequest (msg : String)
  | ok (m : List (String × Option LookupResult))
  | serverError (detail : String)

/-- Message carried by an exception escaping the handler. -/
def pyExcDetail : PyExc → String
  | .timeout => "requests.exceptions.Timeout"
  | .other detail => detail

/-- The `/batch` handler.  `body` is the parsed JSON object of the request
(`none` when `request.get_json()` yields nothing truthy); `fetchFor v k`
is the transport outcome of the k-th fetch attempt for registration `v`.
The two disjuncts of `if not registrations or not isinstance(registrations,
list)` appear as the empty-list test and the catch-all match arm. -/
def batch_lookup (body : Option (List (String × PyVal)))
    (fetchFor : PyVal → Nat → FetchOutcome) : BatchOutcome :=
  match body with
  | none => .badRequest "Invalid request. Please provide a list of registrations."
  | some data =>
    if data.isEmpty then
      .badRequest "Invalid request. Please provide a list of registrations."
    else
      match jsonLookup data "registrations" with
      | none => .badRequest "Invalid request. Please provide a list of registrations."
      | some (PyVal.list entries) =>
        if entries.isEmpty then
          .badRequest "Please provide a valid list of registrations."
        else if entries.length > 50 then
          .badRequest "Batch size too large. Maximum 50 registrations per request."
        else
          match mapResults (fun v => (decorated_get_vehicle_data v (fetchFor v)).1) entries with
          | .error e => .serverError (pyExcDetail e)
          | .ok results =>
            match buildResponse [] (entries.zip results) with
            | .error e => .serverError (pyExcDetail e)
            | .ok m => .ok m
      | some _ => .badRequest "Please provide a valid list of registrations."

/-- The batch-validation condition under which the handler answers 400:
the body holds no `registrations` key (including a missing or empty
body), the value is not a list or is empty, or the list exceeds 50
entries. -/
def rejectsBatch (body : Option (List (String × PyVal))) : Bool :=
  match body with
  | none => true
  | some d =>
    match jsonLookup d "registrations" with
    | none => true
    | some (PyVal.list xs) => xs.isEmpty || xs.length > 50
    | some _ => true

/-- Does upper-casing the value succeed and give exactly `k`?  (Used to
characterize which input registration a response key came from.) -/
def keyMatches (v : PyVal) (k : String) : Bool :=
  match pyUpperVal v with
  | .ok s => s == k
  | .error _ => false

/-! ## Fixtures

Concrete pages used to instantiate the theorems, built from the fixture
summary text of the specification. -/

/-- A page whose summary node carries the fixture summary text and which
has no date annotations. -/
def fixtureDoc : Doc := ⟨some ["Ford Fiesta,Petrol,1200cc,Manual"], []⟩

/-- The record extracted from `fixtureDoc` for the registration
`ab12cde`. -/
def fixtureFields : List (String × String) :=
  [("reg", "AB12CDE"), ("make", "Ford"), ("model", "Fiesta"),
   ("fuel", "Petrol"), ("cc", "1200"), ("transmission", "Manual")]

/-- The fixture page together with both date annotations. -/
def fixtureDatedDoc : Doc :=
  ⟨some ["Ford Fiesta,Petrol,1200cc,Manual"],
   ["Book now", "  Registered on: 01 March 2015 ", "MOT due on: 02 April 2026"]⟩

/-- A page whose third summary part starts with the letters cc (which are
not a unit suffix there). -/
def ccFrontDoc : Doc := ⟨some ["Ford Fiesta,Petrol,cc100,Manual"], []⟩

/-- A network that fails with a timeout on the first two attempts and
serves the fixture page on the third. -/
def flakyFetch : Nat → FetchOutcome :=
  fun k => if k < 2 then .timeoutExc else .response 200 fixtureDoc

/-- The cc transformation as the claim words it: the `cc` unit suffix
removed and surrounding whitespace trimmed (stated from the claim, to be
compared with what the source computes). -/
def ccSpecSuffix (p : String) : String :=
  let t := pyStrip p
  if ("cc".data).isSuffixOf t.data then
    pyStrip (String.mk (t.data.take (t.data.length - 2)))
  else t

/-! ## Basic lemmas about the embedding -/

/-- The exception handlers of `get_vehicle_data` cover every exception, so
the callable always returns, and it returns `lookupTotal`. -/
theorem get_vehicle_data_eq (reg : PyVal) (fetch : FetchOutcome) :
    get_vehicle_data reg fetch = .ok (lookupTotal reg fetch) := by
  unfold get_vehicle_data lookupTotal
  cases h : get_vehicle_data_try reg fetch with
  | ok r => rfl
  | error e => cases e <;> rfl

/-- Unfolding of one iteration of the retry loop. -/
theorem retryGo_succ {α : Type} (f : Nat → Except PyExc α) (r n : Nat) :
    retryGo f r (n + 1) =
      match f r with
      | .ok a => (.ok (some a), 1, 0)
      | .error e =>
        if n = 0 then (.error e, 1, 0)
        else ((retryGo f (r + 1) n).1, (retryGo f (r + 1) n).2.1 + 1,
              (retryGo f (r + 1) n).2.2 + 1) := rfl

/-- Because the wrapped `get_vehicle_data` never raises, the retry
decorator always returns after exactly one call and no sleep, with the
result of the first attempt. -/
theorem decorated_spec (reg : PyVal) (fetchSeq : Nat → FetchOutcome) :
    decorated_get_vehicle_data reg fetchSeq =
      (.ok (some (lookupTotal reg (fetchSeq 0))), 1, 0) := by
  unfold decorated_get_vehicle_data retry_call
  rw [show (3 : Nat) = 2 + 1 from rfl, retryGo_succ, get_vehicle_data_eq]

/-- The worker pool over a function that always succeeds collects the
mapped results. -/
theorem mapResults_ok (f : PyVal → Except PyExc (Option LookupResult))
    (g : PyVal → Option LookupResult) (hf : ∀ v, f v = .ok (g v)) :
    ∀ l : List PyVal, mapResults f l = .ok (l.map g) := by
  intro l
  induction l with
  | nil => rfl
  | cons a l ih => simp [mapResults, hf, ih]

/-- Zipping a list with its own image. -/
theorem zip_self_map {α β : Type} (g : α → β) (l : List α) :
    l.zip (l.map g) = l.map (fun a => (a, g a)) := by
  induction l with
  | nil => rfl
  | cons a l ih => simp [List.zip_cons_cons, ih]

/-- Looking a key up in a non-empty ordered mapping. -/
theorem dictLookup_cons {α : Type} (p : String × α) (rest : List (String × α))
    (q : String) :
    dictLookup (p :: rest) q = if p.1 = q then some p.2 else dictLookup rest q := by
  unfold dictLookup
  by_cases h : p.1 = q
  · rw [List.find?_cons_of_pos _ (by simp [h])]
    simp [h]
  · rw [List.find?_cons_of_neg _ (by simp [h])]
    simp [h]

/-- Looking a key up after a dict insertion. -/
theorem dictLookup_dictInsert {α : Type} (m : List (String × α)) (k : String)
    (v : α) (q : String) :
    dictLookup (dictInsert m k v) q = if k = q then some v else dictLookup m q := by
  induction m with
  | nil =>
    by_cases hkq : k = q
    · simp [dictInsert, dictLookup_cons, dictLookup, List.find?, hkq]
    · have hb : (k == q) = false := by simp [hkq]
      simp [dictInsert, dictLookup_cons, dictLookup, List.find?, hkq, hb]
  | cons p rest ih =>
    simp only [dictInsert]
    by_cases hpk : p.1 = k
    · simp only [beq_iff_eq, hpk, if_true]
      rw [dictLookup_cons, dictLookup_cons]
      by_cases hkq : k = q
      · simp [hkq]
      · simp [hkq, hpk]
    · simp only [beq_iff_eq, hpk, if_false]
      rw [dictLookup_cons, dictLookup_cons, ih]
      by_cases hkq : k = q
      · have hpq : ¬ p.1 = q := fun h => hpk (by rw [h, hkq])
        simp [hkq, hpq]
      · simp [hkq]

/-- On strings, `keyMatches` is just comparison with the upper-cased
string. -/
theorem keyMatches_str (s k : String) : keyMatches (.str s) k = (pyUpper s == k) := rfl

/-- Characterization of the response mapping built by the dict
comprehension: a key holds the value of the last pair whose registration
upper-cases to it. -/
theorem buildResponse_lookup (pairs : List (PyVal × Option LookupResult)) :
    ∀ (acc m : List (String × Option LookupResult)) (k : String),
    buildResponse acc pairs = .ok m →
    dictLookup m k =
      match pairs.reverse.find? (fun p => keyMatches p.1 k) with
      | some p => some p.2
      | none => dictLookup acc k := by
  induction pairs with
  | nil =>
    intro acc m k h
    simp only [buildResponse] at h
    cases h
    simp
  | cons p rest ih =>
    intro acc m k h
    simp only [buildResponse] at h
    cases hup : pyUpperVal p.1 with
    | error e => simp [hup] at h
    | ok s =>
      rw [hup] at h
      have hrek := ih (dictInsert acc s p.2) m k h
      rw [List.reverse_cons, List.find?_append]
      cases hfind : rest.reverse.find? (fun q => keyMatches q.1 k) with
      | some q =>
        rw [hfind] at hrek
        simpa [Option.or] using hrek
      | none =>
        rw [hfind] at hrek
        rw [hrek, dictLookup_dictInsert]
        simp only [Option.or, List.find?]
        by_cases hm : keyMatches p.1 k
        · have hsk : s = k := by
            unfold keyMatches at hm
            rw [hup] at hm
            exact beq_iff_eq.mp hm
          simp [hm, hsk]
        · have hsk : ¬ s = k := by
            intro hsk
            apply hm
            unfold keyMatches
            rw [hup]
            simp [hsk]
          simp only [Bool.not_eq_true] at hm
          simp [hm, hsk]

/-- When every registration in the zipped list is a string, the response
mapping is built without an exception. -/
theorem buildResponse_ok_of_strings (pairs : List (PyVal × Option LookupResult)) :
    ∀ acc, (∀ p ∈ pairs, isStr p.1 = true) →
    ∃ m, buildResponse acc pairs = .ok m := by
  induction pairs with
  | nil => exact fun acc _ => ⟨acc, rfl⟩
  | cons p rest ih =>
    intro acc h
    have hp : isStr p.1 = true := h p (List.mem_cons_self p rest)
    cases hv : p.1 with
    | str s =>
      simp only [buildResponse, hv, pyUpperVal]
      exact ih (dictInsert acc (pyUpper s) p.2)
        (fun q hq => h q (List.mem_cons_of_mem p hq))
    | int n => rw [hv] at hp; simp [isStr] at hp
    | list xs => rw [hv] at hp; simp [isStr] at hp
    | none' => rw [hv] at hp; simp [isStr] at hp

/-- A non-string registration anywhere in the zipped list makes the dict
comprehension raise. -/
theorem buildResponse_error_of_nonstring (pairs : List (PyVal × Option LookupResult)) :
    ∀ acc, (∃ p ∈ pairs, isStr p.1 = false) →
    ∃ e, buildResponse acc pairs = .error e := by
  induction pairs with
  | nil =>
    intro acc h
    rcases h with ⟨p, hp, _⟩
    simp at hp
  | cons p rest ih =>
    intro acc h
    cases hv : p.1 with
    | str s =>
      rcases h with ⟨q, hq, hqs⟩
      rcases List.mem_cons.mp hq with hq1 | hq2
      · rw [hq1, hv] at hqs
        simp [isStr] at hqs
      · simp only [buildResponse, hv, pyUpperVal]
        exact ih (dictInsert acc (pyUpper s) p.2) ⟨q, hq2, hqs⟩
    | int n =>
      exact ⟨.other "AttributeError: int object has no attribute upper",
        by simp [buildResponse, hv, pyUpperVal]⟩
    | list xs =>
      exact ⟨.other "AttributeError: list object has no attribute upper",
        by simp [buildResponse, hv, pyUpperVal]⟩
    | none' =>
      exact ⟨.other "AttributeError: NoneType object has no attribute upper",
        by simp [buildResponse, hv, pyUpperVal]⟩

/-- Finding the pair whose string registration upper-cases to `k` in a
zipped list is finding the registration itself. -/
theorem find?_upper_map (ss : List String) (g : String → Option LookupResult) (k : String) :
    (ss.map (fun s => (PyVal.str s, g s))).find? (fun p => keyMatches p.1 k)
      = (ss.find? (fun s => pyUpper s == k)).map (fun s => (PyVal.str s, g s)) := by
  induction ss with
  | nil => rfl
  | cons a l ih =>
    simp only [List.map_cons, List.find?_cons, keyMatches_str]
    cases h : (pyUpper a == k)
    · simp [h, ih]
    · simp [h]

/-- Inversion: the only way the pipeline produces a record is a 200
response whose summary text splits into at least four comma parts, for a
string registration, and the record fields are exactly the ones the source
assembles. -/
theorem record_shape (reg : PyVal) (fetch : FetchOutcome) (fields : List (String × String))
    (h : get_vehicle_data reg fetch = .ok (.record fields)) :
    ∃ doc frags p0 p1 p2 p3 rest s,
      fetch = .response 200 doc ∧
      doc.summaryNode = some frags ∧
      pySplitComma (getTextStrip frags) = p0 :: p1 :: p2 :: p3 :: rest ∧
      reg = .str s ∧
      fields =
        [("reg", pyUpper s),
         ("make", (splitFirstSpace (pyStrip (pyRemove "-" p0))).1),
         ("model", (splitFirstSpace (pyStrip (pyRemove "-" p0))).2),
         ("fuel", pyStrip p1),
         ("cc", pyStrip (pyRemove "cc" p2)),
         ("transmission", pyStrip p3)]
        ++ (doc.texts.find? (fun t => pyContains "Registered on:" t)).elim []
             (fun t => [("registered_on", pyStrip (pyRemove "Registered on:" (pyStrip t)))])
        ++ (doc.texts.find? (fun t => pyContains "MOT due on:" t)).elim []
             (fun t => [("mot_expiry", pyStrip (pyRemove "MOT due on:" (pyStrip t)))]) := by
  cases fetch with
  | timeoutExc => simp [get_vehicle_data, get_vehicle_data_try] at h
  | otherExc detail => simp [get_vehicle_data, get_vehicle_data_try] at h
  | response status doc =>
    by_cases hs : status = 200
    · subst hs
      cases hsum : doc.summaryNode with
      | none => simp [get_vehicle_data, get_vehicle_data_try, hsum] at h
      | some frags =>
        rcases hparts : pySplitComma (getTextStrip frags) with _ | ⟨p0, _ | ⟨p1, _ | ⟨p2, _ | ⟨p3, rest⟩⟩⟩⟩
        · simp [get_vehicle_data, get_vehicle_data_try, hsum, hparts] at h
        · simp [get_vehicle_data, get_vehicle_data_try, hsum, hparts] at h
        · simp [get_vehicle_data, get_vehicle_data_try, hsum, hparts] at h
        · simp [get_vehicle_data, get_vehicle_data_try, hsum, hparts] at h
        · cases reg with
          | str s =>
            refine ⟨doc, frags, p0, p1, p2, p3, rest, s, rfl, hsum, hparts, rfl, ?_⟩
            cases hf1 : doc.texts.find? (fun t => pyContains "Registered on:" t) with
            | none =>
              cases hf2 : doc.texts.find? (fun t => pyContains "MOT due on:" t) with
              | none =>
                simp [get_vehicle_data, get_vehicle_data_try, hsum, hparts,
                  pyUpperVal, hf1, hf2] at h
                simp [hf1, hf2, h]
              | some t2 =>
                simp [get_vehicle_data, get_vehicle_data_try, hsum, hparts,
                  pyUpperVal, hf1, hf2] at h
                simp [hf1, hf2, h]
            | some t1 =>
              cases hf2 : doc.texts.find? (fun t => pyContains "MOT due on:" t) with
              | none =>
                simp [get_vehicle_data, get_vehicle_data_try, hsum, hparts,
                  pyUpperVal, hf1, hf2] at h
                simp [hf1, hf2, h]
              | some t2 =>
                simp [get_vehicle_data, get_vehicle_data_try, hsum, hparts,
                  pyUpperVal, hf1, hf2] at h
                simp [hf1, hf2, h]
          | int n =>
            simp [get_vehicle_data, get_vehicle_data_try, hsum, hparts, pyUpperVal] at h
          | list xs =>
            simp [get_vehicle_data, get_vehicle_data_try, hsum, hparts, pyUpperVal] at h
          | none' =>
            simp [get_vehicle_data, get_vehicle_data_try, hsum, hparts, pyUpperVal] at h
    · simp [get_vehicle_data, get_vehicle_data_try, hs] at h

/-- Taking the no-space head of a decomposition around the first space. -/
theorem takeWhile_decomp (l r : List Char) (hl : ∀ c ∈ l, c ≠ ' ') :
    (l ++ ' ' :: r).takeWhile (· != ' ') = l := by
  induction l with
  | nil => simp [List.takeWhile]
  | cons c cs ih =>
    have hc : (c != ' ') = true := by
      simp [hl c (List.mem_cons_self c cs)]
    simp only [List.cons_append, List.takeWhile_cons, hc, if_true]
    rw [ih (fun x hx => hl x (List.mem_cons_of_mem c hx))]

/-- Dropping up to the first space of a decomposition around it. -/
theorem dropWhile_decomp (l r : List Char) (hl : ∀ c ∈ l, c ≠ ' ') :
    (l ++ ' ' :: r).dropWhile (· != ' ') = ' ' :: r := by
  induction l with
  | nil => simp [List.dropWhile]
  | cons c cs ih =>
    have hc : (c != ' ') = true := by
      simp [hl c (List.mem_cons_self c cs)]
    simp only [List.cons_append, List.dropWhile_cons, hc, if_true]
    exact ih (fun x hx => hl x (List.mem_cons_of_mem c hx))

/-- A list without a space survives `takeWhile`. -/
theorem takeWhile_no_space (l : List Char) (hl : ∀ c ∈ l, c ≠ ' ') :
    l.takeWhile (· != ' ') = l := by
  induction l with
  | nil => rfl
  | cons c cs ih =>
    have hc : (c != ' ') = true := by
      simp [hl c (List.mem_cons_self c cs)]
    simp only [List.takeWhile_cons, hc, if_true]
    rw [ih (fun x hx => hl x (List.mem_cons_of_mem c hx))]

/-- A list without a space is emptied by `dropWhile`. -/
theorem dropWhile_no_space (l : List Char) (hl : ∀ c ∈ l, c ≠ ' ') :
    l.dropWhile (· != ' ') = [] := by
  induction l with
  | nil => rfl
  | cons c cs ih =>
    have hc : (c != ' ') = true := by
      simp [hl c (List.mem_cons_self c cs)]
    simp only [List.dropWhile_cons, hc, if_true]
    exact ih (fun x hx => hl x (List.mem_cons_of_mem c hx))

/-! ## The claims -/

/-- C1: the claim states that a fetch failing at the transport level on
attempts 1 and 2 and succeeding on attempt 3 yields the same result as an
immediate success after exactly 3 underlying fetch attempts, transport
faults being retried up to 3 total attempts.  The code contradicts this:
`get_vehicle_data` catches the transport fault itself and returns an
ErrorResult, so the retry wrapper sees a normal return and never retries —
with timeouts on the first two attempts the deployed call answers the
timeout ErrorResult after exactly one fetch attempt and zero retry delays,
which differs from the immediate-success record. -/
theorem claim_C1_retry_never_fires :
    decorated_get_vehicle_data (.str "ab12cde") flakyFetch
      = (.ok (some (.err "Request timed out")), 1, 0) ∧
    decorated_get_vehicle_data (.str "ab12cde") (fun _ => .response 200 fixtureDoc)
      = (.ok (some (.record fixtureFields)), 1, 0) ∧
    LookupResult.err "Request timed out" ≠ .record fixtureFields :=
  ⟨rfl, rfl, by decide⟩

/-- C2: for every registration value and every transport outcome, the
single-record pipeline returns a vehicle record or an error mapping and
never lets an exception escape its boundary; an unanticipated fault is
mapped to the Processing error message with the fault detail appended. -/
theorem claim_C2_pipeline_never_raises (reg : PyVal) (fetch : FetchOutcome) :
    ((∃ fields, get_vehicle_data reg fetch = .ok (.record fields)) ∨
     (∃ msg, get_vehicle_data reg fetch = .ok (.err msg))) ∧
    (∀ detail, fetch = .otherExc detail →
      get_vehicle_data reg fetch = .ok (.err ("Processing error: " ++ detail))) := by
  constructor
  · cases h : lookupTotal reg fetch with
    | record fields =>
      exact Or.inl ⟨fields, by rw [get_vehicle_data_eq, h]⟩
    | err msg =>
      exact Or.inr ⟨msg, by rw [get_vehicle_data_eq, h]⟩
  · intro detail hd
    subst hd
    rfl

/-- Witness for C2 at a concrete unanticipated transport fault. -/
theorem claim_C2_witness :
    (∃ msg, get_vehicle_data (.str "AB12CDE") (.otherExc "connection reset")
      = .ok (.err msg)) ∧
    get_vehicle_data (.str "AB12CDE") (.otherExc "connection reset")
      = .ok (.err "Processing error: connection reset") := by
  refine ⟨?_,
    (claim_C2_pipeline_never_raises (.str "AB12CDE") (.otherExc "connection reset")).2
      "connection reset" rfl⟩
  rcases (claim_C2_pipeline_never_raises (.str "AB12CDE") (.otherExc "connection reset")).1
    with ⟨f, hf⟩ | hm
  · have he : get_vehicle_data (.str "AB12CDE") (.otherExc "connection reset")
        = .ok (.err "Processing error: connection reset") := rfl
    rw [he] at hf
    simp at hf
  · exact hm

/-- C3 counterexample: in the summary text with third part cc100 the
letters cc are not a unit suffix, yet the pipeline stores 100 in the cc
field — it removes every occurrence of the substring cc, not the unit
suffix the claim describes — so the claim is false at this input. -/
theorem claim_C3_counterexample :
    get_vehicle_data (.str "x") (.response 200 ccFrontDoc)
      = .ok (.record [("reg", "X"), ("make", "Ford"), ("model", "Fiesta"),
                      ("fuel", "Petrol"), ("cc", "100"), ("transmission", "Manual")]) ∧
    ccSpecSuffix "cc100" = "cc100" ∧
    dictLookup [("reg", "X"), ("make", "Ford"), ("model", "Fiesta"),
                ("fuel", "Petrol"), ("cc", "100"), ("transmission", "Manual")] "cc"
      ≠ some (ccSpecSuffix "cc100") :=
  ⟨rfl, rfl, by decide⟩

/-- C3 (amended): for every summary text with at least 4 comma-separated
parts, the cc field of the resulting record equals part 2 with every
occurrence of the substring cc removed (leftmost first, non-overlapping)
and surrounding whitespace trimmed; no numeric parsing or range validation
is performed. -/
theorem claim_C3_cc_field (s : String) (doc : Doc) (frags : List String)
    (p0 p1 p2 p3 : String) (rest : List String) (fields : List (String × String))
    (hsum : doc.summaryNode = some frags)
    (hparts : pySplitComma (getTextStrip frags) = p0 :: p1 :: p2 :: p3 :: rest)
    (h : get_vehicle_data (.str s) (.response 200 doc) = .ok (.record fields)) :
    dictLookup fields "cc" = some (pyStrip (pyRemove "cc" p2)) := by
  rcases record_shape _ _ _ h with
    ⟨doc', frags', q0, q1, q2, q3, qrest, s', hfe, hsum', hparts', hregs, hfields⟩
  injection hfe with hst hdoc
  subst hdoc
  rw [hsum] at hsum'
  injection hsum' with hfr
  subst hfr
  rw [hparts] at hparts'
  injection hparts' with h0 h123
  injection h123 with h1 h23
  injection h23 with h2 h33
  subst h2
  rw [hfields]
  rfl

/-- Witness for C3 (amended) at the fixture page. -/
theorem claim_C3_witness :
    dictLookup fixtureFields "cc" = some (pyStrip (pyRemove "cc" "1200cc")) :=
  claim_C3_cc_field "ab12cde" fixtureDoc ["Ford Fiesta,Petrol,1200cc,Manual"]
    "Ford Fiesta" "Petrol" "1200cc" "Manual" [] fixtureFields rfl rfl rfl

/-- C4: for every page whose summary selector is present but whose summary
text splits into fewer than 4 comma parts, extraction yields exactly the
Incomplete data found error; for every page lacking the summary selector,
it yields exactly the No data found error. -/
theorem claim_C4_extraction_failures (reg : PyVal) (doc : Doc) :
    (doc.summaryNode = none →
      get_vehicle_data reg (.response 200 doc) = .ok (.err "No data found")) ∧
    (∀ frags, doc.summaryNode = some frags →
      (pySplitComma (getTextStrip frags)).length < 4 →
      get_vehicle_data reg (.response 200 doc) = .ok (.err "Incomplete data found")) := by
  constructor
  · intro h
    simp [get_vehicle_data, get_vehicle_data_try, h]
  · intro frags hsum hlen
    rcases hparts : pySplitComma (getTextStrip frags) with _ | ⟨p0, _ | ⟨p1, _ | ⟨p2, _ | ⟨p3, rest⟩⟩⟩⟩
    · simp [get_vehicle_data, get_vehicle_data_try, hsum, hparts]
    · simp [get_vehicle_data, get_vehicle_data_try, hsum, hparts]
    · simp [get_vehicle_data, get_vehicle_data_try, hsum, hparts]
    · simp [get_vehicle_data, get_vehicle_data_try, hsum, hparts]
    · rw [hparts] at hlen
      simp at hlen
      omega

/-- Witness for C4 at a selector-less page and a two-part summary. -/
theorem claim_C4_witness :
    get_vehicle_data (.str "zz99zzz") (.response 200 ⟨none, []⟩)
      = .ok (.err "No data found") ∧
    get_vehicle_data (.str "zz99zzz") (.response 200 ⟨some ["a,b"], []⟩)
      = .ok (.err "Incomplete data found") :=
  ⟨(claim_C4_extraction_failures (.str "zz99zzz") ⟨none, []⟩).1 rfl,
   (claim_C4_extraction_failures (.str "zz99zzz") ⟨some ["a,b"], []⟩).2
     ["a,b"] rfl (by decide)⟩

/-- C5: for every identifier, a successful lookup stores exactly the
upper-cased identifier in the reg field, regardless of what the page
contains. -/
theorem claim_C5_reg_uppercased (s : String) (fetch : FetchOutcome)
    (fields : List (String × String))
    (h : get_vehicle_data (.str s) fetch = .ok (.record fields)) :
    dictLookup fields "reg" = some (pyUpper s) := by
  rcases record_shape _ _ _ h with
    ⟨doc, frags, p0, p1, p2, p3, rest, s', hfe, hsum, hparts, hregs, hfields⟩
  injection hregs with hss
  subst hss
  rw [hfields]
  rfl

/-- Witness for C5 at the fixture page. -/
theorem claim_C5_witness :
    dictLookup fixtureFields "reg" = some (pyUpper "ab12cde") :=
  claim_C5_reg_uppercased "ab12cde" (.response 200 fixtureDoc) fixtureFields rfl

/-- C6: for every summary text with at least 4 comma-separated parts, make
and model come from part 0 with all hyphens removed and whitespace
trimmed, split on the first space only: make is the text before the first
space and model the text after it, and when the processed field has no
space the model is the empty string. -/
theorem claim_C6_make_model (s : String) (doc : Doc) (frags : List String)
    (p0 p1 p2 p3 : String) (rest : List String) (fields : List (String × String))
    (hsum : doc.summaryNode = some frags)
    (hparts : pySplitComma (getTextStrip frags) = p0 :: p1 :: p2 :: p3 :: rest)
    (h : get_vehicle_data (.str s) (.response 200 doc) = .ok (.record fields)) :
    ((∀ c ∈ (pyStrip (pyRemove "-" p0)).data, c ≠ ' ') →
      dictLookup fields "make" = some (pyStrip (pyRemove "-" p0)) ∧
      dictLookup fields "model" = some "") ∧
    (∀ before after : List Char,
      (pyStrip (pyRemove "-" p0)).data = before ++ ' ' :: after →
      (∀ c ∈ before, c ≠ ' ') →
      dictLookup fields "make" = some (String.mk before) ∧
      dictLookup fields "model" = some (String.mk after)) := by
  rcases record_shape _ _ _ h with
    ⟨doc', frags', q0, q1, q2, q3, qrest, s', hfe, hsum', hparts', hregs, hfields⟩
  injection hfe with hst hdoc
  subst hdoc
  rw [hsum] at hsum'
  injection hsum' with hfr
  subst hfr
  rw [hparts] at hparts'
  injection hparts' with h0 h123
  subst h0
  have hmk : dictLookup fields "make"
      = some (splitFirstSpace (pyStrip (pyRemove "-" p0))).1 := by
    rw [hfields]; rfl
  have hmd : dictLookup fields "model"
      = some (splitFirstSpace (pyStrip (pyRemove "-" p0))).2 := by
    rw [hfields]; rfl
  constructor
  · intro hns
    unfold splitFirstSpace at hmk hmd
    rw [dropWhile_no_space _ hns] at hmk hmd
    exact ⟨hmk, hmd⟩
  · intro before after hdecomp hbefore
    unfold splitFirstSpace at hmk hmd
    rw [hdecomp, dropWhile_decomp _ _ hbefore, takeWhile_decomp _ _ hbefore] at hmk
    rw [hdecomp, dropWhile_decomp _ _ hbefore] at hmd
    exact ⟨hmk, hmd⟩

/-- Witness for C6: the fixture page exercises the first-space split, a
single-word summary head exercises the empty model. -/
theorem claim_C6_witness :
    (dictLookup fixtureFields "make" = some (String.mk "Ford".data) ∧
     dictLookup fixtureFields "model" = some (String.mk "Fiesta".data)) ∧
    (dictLookup [("reg", "X"), ("make", "Tesla"), ("model", ""),
                 ("fuel", "Electric"), ("cc", "0"), ("transmission", "Auto")] "make"
       = some (pyStrip (pyRemove "-" "Tesla")) ∧
     dictLookup [("reg", "X"), ("make", "Tesla"), ("model", ""),
                 ("fuel", "Electric"), ("cc", "0"), ("transmission", "Auto")] "model"
       = some "") :=
  ⟨(claim_C6_make_model "ab12cde" fixtureDoc ["Ford Fiesta,Petrol,1200cc,Manual"]
      "Ford Fiesta" "Petrol" "1200cc" "Manual" [] fixtureFields rfl rfl rfl).2
      "Ford".data "Fiesta".data (by decide) (by decide),
   (claim_C6_make_model "x" ⟨some ["Tesla,Electric,0cc,Auto"], []⟩
      ["Tesla,Electric,0cc,Auto"] "Tesla" "Electric" "0cc" "Auto" []
      [("reg", "X"), ("make", "Tesla"), ("model", ""),
       ("fuel", "Electric"), ("cc", "0"), ("transmission", "Auto")] rfl rfl rfl).1
      (by decide)⟩

/-- C7: a successful record lists its keys in the fixed insertion order
reg, make, model, fuel, cc, transmission, then registered_on and
mot_expiry; each of the two date keys is present exactly when the
corresponding annotation is found in the document, and its absence still
yields a record. -/
theorem claim_C7_field_order (reg : PyVal) (doc : Doc)
    (fields : List (String × String))
    (h : get_vehicle_data reg (.response 200 doc) = .ok (.record fields)) :
    fields.map Prod.fst
      = ["reg", "make", "model", "fuel", "cc", "transmission"]
        ++ (if (doc.texts.find? (fun t => pyContains "Registered on:" t)).isSome
            then ["registered_on"] else [])
        ++ (if (doc.texts.find? (fun t => pyContains "MOT due on:" t)).isSome
            then ["mot_expiry"] else []) ∧
    (("registered_on" ∈ fields.map Prod.fst) ↔
      (doc.texts.find? (fun t => pyContains "Registered on:" t)).isSome) ∧
    (("mot_expiry" ∈ fields.map Prod.fst) ↔
      (doc.texts.find? (fun t => pyContains "MOT due on:" t)).isSome) := by
  rcases record_shape _ _ _ h with
    ⟨doc', frags, p0, p1, p2, p3, rest, s, hfe, hsum, hparts, hregs, hfields⟩
  injection hfe with hst hdoc
  subst hdoc
  rw [hfields]
  cases hf1 : doc.texts.find? (fun t => pyContains "Registered on:" t) with
  | none =>
    cases hf2 : doc.texts.find? (fun t => pyContains "MOT due on:" t) with
    | none => simp [hf1, hf2]
    | some t2 => simp [hf1, hf2]
  | some t1 =>
    cases hf2 : doc.texts.find? (fun t => pyContains "MOT due on:" t) with
    | none => simp [hf1, hf2]
    | some t2 => simp [hf1, hf2]

/-- Witness for C7 at the fixture page with both date annotations. -/
theorem claim_C7_witness :
    (fixtureFields ++ [("registered_on", "01 March 2015")]
       ++ [("mot_expiry", "02 April 2026")]).map Prod.fst
      = ["reg", "make", "model", "fuel", "cc", "transmission"]
        ++ (if (fixtureDatedDoc.texts.find? (fun t => pyContains "Registered on:" t)).isSome
            then ["registered_on"] else [])
        ++ (if (fixtureDatedDoc.texts.find? (fun t => pyContains "MOT due on:" t)).isSome
            then ["mot_expiry"] else []) :=
  (claim_C7_field_order (.str "ab12cde") fixtureDatedDoc
    (fixtureFields ++ [("registered_on", "01 March 2015")]
       ++ [("mot_expiry", "02 April 2026")]) rfl).1

/-- C8: the batch endpoint answers a 400 exactly when the body holds no
registrations key, the value is empty or not a list, or the list exceeds
50 entries; with exactly 50 (string) entries it proceeds and answers the
aggregate with status 200 for every network behaviour, in particular when
every identifier fails. -/
theorem claim_C8_batch_validation (body : Option (List (String × PyVal)))
    (fetchFor : PyVal → Nat → FetchOutcome) :
    ((∃ msg, batch_lookup body fetchFor = .badRequest msg) ↔ rejectsBatch body = true) ∧
    (∀ d xs, body = some d →
      jsonLookup d "registrations" = some (.list xs) →
      xs.length = 50 →
      (∀ v ∈ xs, isStr v = true) →
      ∃ m, batch_lookup body fetchFor = .ok m) := by
  constructor
  · cases body with
    | none =>
      constructor
      · exact fun _ => rfl
      · exact fun _ =>
          ⟨"Invalid request. Please provide a list of registrations.", rfl⟩
    | some d =>
      by_cases hde : d.isEmpty
      · have hnil : d = [] := List.isEmpty_iff.mp hde
        subst hnil
        simp [batch_lookup, rejectsBatch, jsonLookup]
      · cases hjl : jsonLookup d "registrations" with
        | none => simp [batch_lookup, rejectsBatch, hde, hjl]
        | some v =>
          cases v with
          | list xs =>
            by_cases hxe : xs.isEmpty
            · simp [batch_lookup, rejectsBatch, hde, hjl, hxe]
            · by_cases hlen : xs.length > 50
              · simp [batch_lookup, rejectsBatch, hde, hjl, hxe, hlen]
              · have hone : ∀ v : PyVal,
                    (decorated_get_vehicle_data v (fetchFor v)).1
                      = Except.ok (some (lookupTotal v (fetchFor v 0))) :=
                  fun v => by rw [decorated_spec]
                have hmap := mapResults_ok
                  (fun v => (decorated_get_vehicle_data v (fetchFor v)).1)
                  (fun v => some (lookupTotal v (fetchFor v 0))) hone xs
                constructor
                · rintro ⟨msg, hmsg⟩
                  simp only [batch_lookup, hde, hjl, hxe, hlen, hmap, if_false,
                    Bool.false_eq_true, if_true] at hmsg
                  split at hmsg <;> cases hmsg
                · intro hrej
                  simp [rejectsBatch, hjl, hxe, hlen] at hrej
          | str s2 => simp [batch_lookup, rejectsBatch, hde, hjl]
          | int n => simp [batch_lookup, rejectsBatch, hde, hjl]
          | none' => simp [batch_lookup, rejectsBatch, hde, hjl]
  · intro d xs hb hjl hlen hstr
    subst hb
    have hde : ¬ d.isEmpty := by
      intro he
      rw [List.isEmpty_iff.mp he] at hjl
      simp [jsonLookup] at hjl
    have hxe : ¬ xs.isEmpty := by
      intro he
      rw [List.isEmpty_iff.mp he] at hlen
      simp at hlen
    have hgt : ¬ xs.length > 50 := by omega
    have hone : ∀ v : PyVal,
        (decorated_get_vehicle_data v (fetchFor v)).1
          = Except.ok (some (lookupTotal v (fetchFor v 0))) :=
      fun v => by rw [decorated_spec]
    have hmap := mapResults_ok
      (fun v => (decorated_get_vehicle_data v (fetchFor v)).1)
      (fun v => some (lookupTotal v (fetchFor v 0))) hone xs
    have hpairs : ∀ p ∈ xs.map (fun v => (v, some (lookupTotal v (fetchFor v 0)))),
        isStr p.1 = true := by
      intro p hp
      rcases List.mem_map.mp hp with ⟨v, hv, hpv⟩
      rw [← hpv]
      exact hstr v hv
    rcases buildResponse_ok_of_strings _ [] hpairs with ⟨m, hm⟩
    refine ⟨m, ?_⟩
    simp only [batch_lookup, hde, hjl, hxe, hgt, hmap, if_false, Bool.false_eq_true,
      if_true, zip_self_map, hm]

/-- Witness for C8: a batch of exactly 50 identifiers on a network that
times out on every attempt still yields an aggregate, and a batch of 51
yields a 400 response. -/
theorem claim_C8_witness :
    (∃ m, batch_lookup
        (some [("registrations", PyVal.list (List.replicate 50 (.str "aa11aaa")))])
        (fun _ _ => .timeoutExc) = .ok m) ∧
    (∃ msg, batch_lookup
        (some [("registrations", PyVal.list (List.replicate 51 (.str "aa11aaa")))])
        (fun _ _ => .timeoutExc) = .badRequest msg) :=
  ⟨(claim_C8_batch_validation
      (some [("registrations", PyVal.list (List.replicate 50 (.str "aa11aaa")))])
      (fun _ _ => .timeoutExc)).2 _ _ rfl rfl (by simp)
      (fun v hv => by rw [List.eq_of_mem_replicate hv]; rfl),
   (claim_C8_batch_validation
      (some [("registrations", PyVal.list (List.replicate 51 (.str "aa11aaa")))])
      (fun _ _ => .timeoutExc)).1.mpr (by simp [rejectsBatch, jsonLookup, List.find?])⟩

/-- C9: for every valid batch of string identifiers, the aggregate is
keyed by the upper-cased identifiers and each key holds the pipeline
outcome of the last input identifier normalizing to it; in particular the
batch of ab12cde and AB12CDE yields the single key AB12CDE holding the
outcome of the second run. -/
theorem claim_C9_batch_keying (d : List (String × PyVal)) (ss : List String)
    (fetchFor : PyVal → Nat → FetchOutcome) (m : List (String × Option LookupResult))
    (hjl : jsonLookup d "registrations" = some (.list (ss.map PyVal.str)))
    (hok : batch_lookup (some d) fetchFor = .ok m) :
    (∀ k, dictLookup m k
        = (ss.reverse.find? (fun s => pyUpper s == k)).map
            (fun s => some (lookupTotal (.str s) (fetchFor (.str s) 0)))) ∧
    (∀ fF, batch_lookup
        (some [("registrations", PyVal.list [.str "ab12cde", .str "AB12CDE"])]) fF
      = .ok [("AB12CDE",
              some (lookupTotal (.str "AB12CDE") (fF (.str "AB12CDE") 0)))]) := by
  constructor
  · intro k
    have hde : ¬ d.isEmpty := by
      intro he
      rw [List.isEmpty_iff.mp he] at hjl
      simp [jsonLookup] at hjl
    have hone : ∀ v : PyVal,
        (decorated_get_vehicle_data v (fetchFor v)).1
          = Except.ok (some (lookupTotal v (fetchFor v 0))) :=
      fun v => by rw [decorated_spec]
    have hmap := mapResults_ok
      (fun v => (decorated_get_vehicle_data v (fetchFor v)).1)
      (fun v => some (lookupTotal v (fetchFor v 0))) hone (ss.map PyVal.str)
    by_cases hxe : (ss.map PyVal.str).isEmpty
    · simp only [batch_lookup, hde, hjl, hxe, if_false, Bool.false_eq_true, if_true] at hok
      cases hok
    · by_cases hgt : (ss.map PyVal.str).length > 50
      · simp only [batch_lookup, hde, hjl, hxe, hgt, if_false, Bool.false_eq_true,
          if_true] at hok
        cases hok
      · simp only [batch_lookup, hde, hjl, hxe, hgt, hmap, if_false, Bool.false_eq_true,
          if_true, zip_self_map] at hok
        cases hbr : buildResponse []
            ((ss.map PyVal.str).map
              (fun v => (v, some (lookupTotal v (fetchFor v 0))))) with
        | error e => rw [hbr] at hok; cases hok
        | ok m2 =>
          rw [hbr] at hok
          cases hok
          have hchar := buildResponse_lookup _ [] m k hbr
          rw [hchar]
          have hrev : (((ss.map PyVal.str).map
                (fun v => (v, some (lookupTotal v (fetchFor v 0))))) :
                  List (PyVal × Option LookupResult)).reverse
              = ss.reverse.map (fun s => (PyVal.str s,
                  some (lookupTotal (PyVal.str s) (fetchFor (PyVal.str s) 0)))) := by
            rw [← List.map_reverse, ← List.map_reverse, List.map_map]
            rfl
          rw [hrev, find?_upper_map]
          cases hfind : ss.reverse.find? (fun s => pyUpper s == k) with
          | none => simp [dictLookup]
          | some s0 => simp
  · intro fF
    have h1 : (decorated_get_vehicle_data (.str "ab12cde") (fF (.str "ab12cde"))).1
        = .ok (some (lookupTotal (.str "ab12cde") (fF (.str "ab12cde") 0))) := by
      rw [decorated_spec]
    have h2 : (decorated_get_vehicle_data (.str "AB12CDE") (fF (.str "AB12CDE"))).1
        = .ok (some (lookupTotal (.str "AB12CDE") (fF (.str "AB12CDE") 0))) := by
      rw [decorated_spec]
    have hjl2 : jsonLookup
        [("registrations", PyVal.list [.str "ab12cde", .str "AB12CDE"])] "registrations"
        = some (PyVal.list [.str "ab12cde", .str "AB12CDE"]) := rfl
    simp only [batch_lookup, hjl2, mapResults, h1, h2]
    rfl

/-- Witness for C9 at the duplicate pair with an all-timeout network. -/
theorem claim_C9_witness :
    dictLookup [("AB12CDE", some (LookupResult.err "Request timed out"))] "AB12CDE"
      = ((["ab12cde", "AB12CDE"].reverse.find? (fun s => pyUpper s == "AB12CDE")).map
          (fun s => some (lookupTotal (.str s)
            ((fun _ _ => FetchOutcome.timeoutExc) (PyVal.str s) 0)))) :=
  (claim_C9_batch_keying [("registrations", .list [.str "ab12cde", .str "AB12CDE"])]
    ["ab12cde", "AB12CDE"] (fun _ _ => .timeoutExc)
    [("AB12CDE", some (.err "Request timed out"))] rfl rfl).1 "AB12CDE"

/-- C10: a batch list passing validation (non-empty, at most 50 entries)
that contains a non-string entry makes the handler raise while building
the result mapping — upper-casing the non-string key — instead of
returning a 400 or a per-entry error: element types are never
validated. -/
theorem claim_C10_nonstring_crashes (d : List (String × PyVal)) (xs : List PyVal)
    (fetchFor : PyVal → Nat → FetchOutcome)
    (hjl : jsonLookup d "registrations" = some (.list xs))
    (hne : xs ≠ [])
    (hlen : xs.length ≤ 50)
    (hnstr : ∃ v ∈ xs, isStr v = false) :
    ∃ detail, batch_lookup (some d) fetchFor = .serverError detail := by
  have hde : ¬ d.isEmpty := by
    intro he
    rw [List.isEmpty_iff.mp he] at hjl
    simp [jsonLookup] at hjl
  have hxe : ¬ xs.isEmpty := by
    intro he
    exact hne (List.isEmpty_iff.mp he)
  have hgt : ¬ xs.length > 50 := by omega
  have hone : ∀ v : PyVal,
      (decorated_get_vehicle_data v (fetchFor v)).1
        = Except.ok (some (lookupTotal v (fetchFor v 0))) :=
    fun v => by rw [decorated_spec]
  have hmap := mapResults_ok
    (fun v => (decorated_get_vehicle_data v (fetchFor v)).1)
    (fun v => some (lookupTotal v (fetchFor v 0))) hone xs
  have hpair : ∃ p ∈ xs.map (fun v => (v, some (lookupTotal v (fetchFor v 0)))),
      isStr p.1 = false := by
    rcases hnstr with ⟨v, hv, hvs⟩
    exact ⟨(v, some (lookupTotal v (fetchFor v 0))),
      List.mem_map_of_mem _ hv, hvs⟩
  rcases buildResponse_error_of_nonstring _ [] hpair with ⟨e, he⟩
  refine ⟨pyExcDetail e, ?_⟩
  simp only [batch_lookup, hde, hjl, hxe, hgt, hmap, if_false, Bool.false_eq_true,
    if_true, zip_self_map, he]

/-- Witness for C10 at a singleton batch holding an integer. -/
theorem claim_C10_witness :
    ∃ detail, batch_lookup (some [("registrations", PyVal.list [.int 123])])
      (fun _ _ => .timeoutExc) = .serverError detail :=
  claim_C10_nonstring_crashes [("registrations", PyVal.list [.int 123])] [.int 123]
    (fun _ _ => .timeoutExc) rfl (by simp) (by simp)
    ⟨.int 123, List.mem_singleton_self _, rfl⟩

end RegLookup
